import Mathlib

/-!
# Verification of the Starbucks MCP server order workflow

Shallow embedding of `src/starbucks.ts` (class `StarbucksClient`): the
order state machine (`placeOrder` / `confirmOrder` / `cancelOrder`), the
cart-builder product matching (`addItemToCart`), the checkout total
scraping, location resolution, `checkAuth`, and the favorites store
(`addFavorite` / `orderFavorite`).

Strings are modelled as `List Char` (`Str`).  Browser-environment
outcomes (visibility of controls, page texts, menu listings) are an
explicit `Env` record; the mutable fields of the TypeScript class are a
`ClientState` record threaded through the operations.  JavaScript string
operations are modelled on the character repertoire the program deals
with: `toLowerCase` is ASCII case mapping, `\d` is the ASCII digits
(exactly as in JS regexes), `\s` is ASCII whitespace, and
`normalize("NFD")` is given by a decomposition table for the common
precomposed Latin letters (identity on everything else).
-/

set_option maxRecDepth 4096

/-- Strings as character lists. -/
abbrev Str := List Char

namespace SBModel

/-! ## Basic string operations (JS semantics) -/

/-- `String.prototype.toLowerCase`, restricted to ASCII letters. -/
def toLowerStr (s : Str) : Str := s.map Char.toLower

/-- Does `needle` occur at the head of `hay`? (building block of `includes`). -/
def headMatch : Str → Str → Bool
  | [], _ => true
  | _ :: _, [] => false
  | c :: cs, d :: ds => c == d && headMatch cs ds

/-- `hay.includes(needle)`: contiguous-substring containment, JS semantics
(the empty needle is contained in every string). -/
def containsSub (hay needle : Str) : Bool :=
  match hay with
  | [] => needle.isEmpty
  | _ :: t => headMatch needle hay || containsSub t needle

/-- `hay.indexOf(needle)`: index of the first occurrence, `none` for JS `-1`. -/
def indexOfStr (hay needle : Str) : Option Nat :=
  match hay with
  | [] => if needle.isEmpty then some 0 else none
  | _ :: t =>
    if headMatch needle hay then some 0
    else (indexOfStr t needle).map (· + 1)

/-- Case-insensitive match of the literal `pat` at the head of `hay`;
returns the remaining input on success.  Models the literal parts of the
`/.../i` regexes. -/
def ciLiteral : Str → Str → Option Str
  | [], hay => some hay
  | _ :: _, [] => none
  | c :: cs, d :: ds =>
    if Char.toLower d == Char.toLower c then ciLiteral cs ds else none

/-- Greedy `\s*` (ASCII whitespace, as rendered page text uses). -/
def skipWs (s : Str) : Str := s.dropWhile Char.isWhitespace

/-- `([\d]+\.[\d]{2})`: one or more digits, a literal dot, exactly two
digits.  Returns the captured group and the remaining input. -/
def amountAt (s : Str) : Option (Str × Str) :=
  let ds := s.takeWhile Char.isDigit
  let rest := s.dropWhile Char.isDigit
  if ds.isEmpty then none
  else
    match rest with
    | '.' :: d1 :: d2 :: rest2 =>
      if d1.isDigit && d2.isDigit then some (ds ++ ['.', d1, d2], rest2) else none
    | _ => none

/-- First-match scan: try `f` at every suffix from the left, as a JS
regex `match` without the `g` flag does. -/
def scanFirst (f : Str → Option α) : Str → Option α
  | [] => f []
  | c :: t =>
    match f (c :: t) with
    | some r => some r
    | none => scanFirst f t

/-! ## Unicode normalization as used by `addItemToCart`

`item.name.normalize("NFD").replace(/[̀-ͯ]/g, "")`. -/

/-- Canonical decomposition (NFD) of one character, tabulated for the
precomposed Latin letters that occur in menu text; every other character
decomposes to itself. -/
def nfdChar (c : Char) : List Char :=
  match c with
  | 'à' => ['a', '̀'] | 'á' => ['a', '́'] | 'â' => ['a', '̂']
  | 'ã' => ['a', '̃'] | 'ä' => ['a', '̈'] | 'å' => ['a', '̊']
  | 'è' => ['e', '̀'] | 'é' => ['e', '́'] | 'ê' => ['e', '̂']
  | 'ë' => ['e', '̈']
  | 'ì' => ['i', '̀'] | 'í' => ['i', '́'] | 'î' => ['i', '̂']
  | 'ï' => ['i', '̈']
  | 'ò' => ['o', '̀'] | 'ó' => ['o', '́'] | 'ô' => ['o', '̂']
  | 'õ' => ['o', '̃'] | 'ö' => ['o', '̈']
  | 'ù' => ['u', '̀'] | 'ú' => ['u', '́'] | 'û' => ['u', '̂']
  | 'ü' => ['u', '̈']
  | 'ñ' => ['n', '̃'] | 'ç' => ['c', '̧'] | 'ý' => ['y', '́']
  | 'À' => ['A', '̀'] | 'Á' => ['A', '́'] | 'Â' => ['A', '̂']
  | 'Ã' => ['A', '̃'] | 'Ä' => ['A', '̈'] | 'Å' => ['A', '̊']
  | 'È' => ['E', '̀'] | 'É' => ['E', '́'] | 'Ê' => ['E', '̂']
  | 'Ë' => ['E', '̈']
  | 'Ì' => ['I', '̀'] | 'Í' => ['I', '́'] | 'Î' => ['I', '̂']
  | 'Ï' => ['I', '̈']
  | 'Ò' => ['O', '̀'] | 'Ó' => ['O', '́'] | 'Ô' => ['O', '̂']
  | 'Õ' => ['O', '̃'] | 'Ö' => ['O', '̈']
  | 'Ù' => ['U', '̀'] | 'Ú' => ['U', '́'] | 'Û' => ['U', '̂']
  | 'Ü' => ['U', '̈']
  | 'Ñ' => ['N', '̃'] | 'Ç' => ['C', '̧']
  | _ => [c]

/-- `s.normalize("NFD")`. -/
def jsNormalizeNFD (s : Str) : Str := s.flatMap nfdChar

/-- `.replace(/[̀-ͯ]/g, "")`: drop the combining-mark block. -/
def stripCombining (s : Str) : Str :=
  s.filter (fun c => !(0x300 ≤ c.toNat && c.toNat ≤ 0x36f))

/-- The normalization the cart builder applies to the requested name and
to each candidate's displayed text (starbucks.ts line 509 / 516). -/
def normalizeNFD (s : Str) : Str := stripCombining (jsNormalizeNFD s)

/-! ## Data model (`StarbucksItem`, favorites, pending order) -/

/-- `type: "drink" | "food"`. -/
inductive ItemType where
  | drink
  | food
deriving DecidableEq, Repr

/-- `size?: "tall" | "grande" | "venti"`. -/
inductive Size where
  | tall
  | grande
  | venti
deriving DecidableEq, Repr

/-- `interface StarbucksItem` (starbucks.ts lines 9-14).  `size` is
optional. -/
structure StarbucksItem where
  type : ItemType
  name : Str
  size : Option Size
deriving DecidableEq, Repr

/-- `interface StarbucksFavorite` (lines 16-19). -/
structure StarbucksFavorite where
  name : Str
  items : List StarbucksItem
deriving DecidableEq, Repr

/-- The `pendingOrder` snapshot: `{ items: StarbucksItem[]; location: string }`
(line 27). -/
structure PendingOrder where
  items : List StarbucksItem
  location : Str
deriving DecidableEq, Repr

/-- The mutable fields of `StarbucksClient` that the verified operations
touch: the pending-order slot, whether a live page handle exists
(`this.page !== null`), and the in-memory favorites list. -/
structure ClientState where
  pendingOrder : Option PendingOrder
  pageOpen : Bool
  favorites : List StarbucksFavorite
deriving DecidableEq, Repr

/-- Menu category pages `addItemToCart` navigates to. -/
inductive Category where
  | coldCoffee
  | hotCoffee
  | breakfast
deriving DecidableEq, Repr

/-- Outcomes of the browser environment during one `placeOrder` /
`confirmOrder` run: which controls become visible within their bounded
waits, what the rendered pages contain, and which product links each
category listing offers (in DOM order). -/
structure Env where
  /-- a "Sign in" control is visible on the menu page (user not logged in). -/
  signInVisible : Bool
  /-- `STARBUCKS_EMAIL` and `STARBUCKS_PASSWORD` are both set. -/
  credsPresent : Bool
  /-- the headless `autoLogin` run reaches an authenticated URL in time. -/
  autoLoginOk : Bool
  /-- the store-locator search input becomes visible within its wait. -/
  storeInputVisible : Bool
  /-- an "Order Here" control can be clicked within its wait. -/
  orderHereOk : Bool
  /-- displayed text of each `/menu/product/` link on a category page. -/
  listing : Category → List Str
  /-- the size selector label becomes visible within its wait. -/
  sizeVisible : Bool
  /-- the "Add to Order" control can be clicked. -/
  addOk : Bool
  /-- rendered body text of the cart page (read at line 352). -/
  bodyText : Str
  /-- the "Continue" control on the cart page becomes visible. -/
  continueVisible : Bool
  /-- rendered body text of the checkout page (read at line 389). -/
  checkoutText : Str
  /-- the "Checkout" control becomes visible during `confirmOrder`. -/
  checkoutVisible : Bool

/-- The distinguishable failures the workflow raises (each is a thrown
`Error` with the indicated message in the source). -/
inductive SbError where
  /-- "Not logged in. Please run login_starbucks first ..." (line 263). -/
  | notAuthenticated
  /-- "Auto-login failed: ..." (line 229). -/
  | autoLoginFailed
  /-- "Could not find store search input. ..." (line 300). -/
  | storeNotFound
  /-- "Could not find 'Order Here' button for the store. ..." (line 311). -/
  | storeUnavailable
  /-- "Could not find item: NAME" (line 527), wrapped as
  "Failed to add NAME to cart: ..." (line 551). -/
  | itemNotFound (name : Str)
  /-- the size label never became visible (line 542), wrapped at line 551. -/
  | sizeUnavailable (name : Str)
  /-- the "Add to Order" click failed (line 548), wrapped at line 551. -/
  | addToCartFailed (name : Str)
  /-- "Cart is empty - items failed to add. ..." (line 356). -/
  | cartEmpty
  /-- "No pending order to confirm/cancel. ..." (lines 429, 473). -/
  | noPendingOrder
  /-- "Browser session not active." (line 433). -/
  | browserNotActive
  /-- the "Checkout" control never appeared during `confirmOrder` (line 439). -/
  | confirmFailed
  /-- `Favorite "NAME" not found` (line 236). -/
  | favoriteNotFound (name : Str)
deriving DecidableEq, Repr

/-! ## Location resolution (placeOrder lines 283-289) -/

/-- The single address every mapped name resolves to, also the fallback. -/
def polkStAddress : Str := "2165 Polk St, San Francisco, CA 94109, USA".toList

/-- The static `addressMap` object literal (exact-key property lookup). -/
def addressMap : List (Str × Str) :=
  [("Polk Street".toList, polkStAddress),
   ("polk street".toList, polkStAddress),
   ("polk".toList, polkStAddress)]

/-- Own-property lookup on the object literal above (exact key). -/
def assocLookup (m : List (Str × Str)) (k : Str) : Option Str :=
  match m with
  | [] => none
  | (k', v) :: rest => if k == k' then some v else assocLookup rest k

/-- What `addressMap[k]` can evaluate to: an own string property, a
truthy non-string value inherited from `Object.prototype` (a built-in
function, or the prototype object itself for `__proto__`), or
`undefined`. -/
inductive JsLookupResult where
  | str (v : Str)
  | protoValue
  | jsUndefined
deriving DecidableEq, Repr

/-- The property keys an object literal inherits from
`Object.prototype`; bracket lookup on any of these returns a truthy
non-string value rather than `undefined`. -/
def objectPrototypeKeys : List Str :=
  ["constructor".toList, "hasOwnProperty".toList, "isPrototypeOf".toList,
   "propertyIsEnumerable".toList, "toLocaleString".toList, "toString".toList,
   "valueOf".toList, "__defineGetter__".toList, "__defineSetter__".toList,
   "__lookupGetter__".toList, "__lookupSetter__".toList, "__proto__".toList]

/-- JS bracket lookup `addressMap[k]`: an own key first, then the
prototype chain (`Object.prototype`), else `undefined`. -/
def jsPropLookup (m : List (Str × Str)) (k : Str) : JsLookupResult :=
  match assocLookup m k with
  | some v => .str v
  | none => if k ∈ objectPrototypeKeys then .protoValue else .jsUndefined

/-- The value bound to `const address` at line 289: a string, or the
truthy inherited non-string object when the lookup hit the prototype
chain. -/
inductive AddressValue where
  | str (v : Str)
  | protoObject
deriving DecidableEq, Repr

/-- `addressMap[location.toLowerCase()] || "2165 Polk St, ..."`
(line 289): `||` keeps the lookup result when it is truthy — any
inherited prototype value is truthy, an own string is truthy iff
non-empty — and falls back to the default address only on a falsy
result. -/
def resolveAddress (location : Str) : AddressValue :=
  match jsPropLookup addressMap (toLowerStr location) with
  | .str v => if v.isEmpty then .str polkStAddress else .str v
  | .protoValue => .protoObject
  | .jsUndefined => .str polkStAddress

/-! ## Cart builder (`addItemToCart`, lines 489-553) -/

/-- Cold-beverage keyword heuristic (lines 494-496). -/
def isCold (name : Str) : Bool :=
  containsSub (toLowerStr name) "iced".toList ||
  containsSub (toLowerStr name) "cold brew".toList ||
  containsSub (toLowerStr name) "frappuccino".toList

/-- Which category page is visited for the item (lines 492-504). -/
def categoryOf (item : StarbucksItem) : Category :=
  match item.type with
  | .drink => if isCold item.name then .coldCoffee else .hotCoffee
  | .food => .breakfast

/-- The per-candidate test of the matching loop (lines 513-524): the
diacritic-stripped candidate text, lowercased, must contain the
diacritic-stripped requested name, lowercased, and the raw candidate
text, lowercased, must not contain "traveler". -/
def candidateMatches (itemName : Str) (text : Str) : Bool :=
  containsSub (toLowerStr (normalizeNFD text)) (toLowerStr (normalizeNFD itemName)) &&
  !containsSub (toLowerStr text) "traveler".toList

/-- The loop over candidate links in DOM order: the first match wins. -/
def findTarget (itemName : Str) (candidates : List Str) : Option Str :=
  candidates.find? (candidateMatches itemName)

/-- One `addItemToCart` call.  After a successful match: for a drink with
a size, the size label must become visible (else the wrapped error names
the item, line 551); then the "Add to Order" click must succeed. -/
def addItemToCart (env : Env) (item : StarbucksItem) : Except SbError Unit :=
  match findTarget item.name (env.listing (categoryOf item)) with
  | none => .error (.itemNotFound item.name)
  | some _ =>
    match item.type, item.size with
    | .drink, some _ =>
      if env.sizeVisible then
        if env.addOk then .ok () else .error (.addToCartFailed item.name)
      else .error (.sizeUnavailable item.name)
    | _, _ =>
      if env.addOk then .ok () else .error (.addToCartFailed item.name)

/-- The `for (const item of items)` loop of placeOrder (lines 318-320):
stops at the first failing item. -/
def addItems (env : Env) : List StarbucksItem → Except SbError Unit
  | [] => .ok ()
  | item :: rest =>
    match addItemToCart env item with
    | .error e => .error e
    | .ok _ => addItems env rest

/-! ## Order scraper (placeOrder lines 350-413) -/

/-- One attempted match of `/Review order \((\d+)\)/i` at the head of the
text, returning the captured digit group. -/
def reviewOrderAt (s : Str) : Option Str :=
  match ciLiteral "Review order (".toList s with
  | none => none
  | some s1 =>
    let ds := s1.takeWhile Char.isDigit
    let rest := s1.dropWhile Char.isDigit
    if ds.isEmpty then none
    else
      match rest with
      | ')' :: _ => some ds
      | _ => none

/-- `bodyText.match(/Review order \((\d+)\)/i)` — the first match's group. -/
def reviewOrderCount (body : Str) : Option Str := scanFirst reviewOrderAt body

/-- `cartCount && cartCount[1] === '0'` (line 355). -/
def cartCountIsZero (body : Str) : Bool :=
  match reviewOrderCount body with
  | some ds => ds == ['0']
  | none => false

/-- One attempted match of `/Total\s*\$?([\d]+\.[\d]{2})/i` at the head. -/
def totalPatAt (s : Str) : Option Str :=
  match ciLiteral "Total".toList s with
  | none => none
  | some s1 =>
    let s2 := skipWs s1
    let s3 :=
      match s2 with
      | '$' :: r => r
      | _ => s2
    (amountAt s3).map Prod.fst

/-- One attempted match of `/\$\s*([\d]+\.[\d]{2})\s*total/i` at the head. -/
def dollarTotalPatAt (s : Str) : Option Str :=
  match s with
  | '$' :: r =>
    match amountAt (skipWs r) with
    | none => none
    | some (g, rest) => (ciLiteral "total".toList (skipWs rest)).map (fun _ => g)
  | _ => none

/-- One attempted match of `/\$([\d]+\.[\d]{2})/` at the head. -/
def dollarAmountAt (s : Str) : Option Str :=
  match s with
  | '$' :: r => (amountAt r).map Prod.fst
  | _ => none

/-- The windowed subtotal fallback (lines 394-400): find `subtotal` in the
lowercased text and search the suffix of the original text from that index
for `\$([\d]+\.[\d]{2})`.  Note the guard is `if (subtotalIdx &&
subtotalIdx > -1)`: a match at index 0 is falsy in JS and is skipped. -/
def subtotalWindow (text : Str) : Option Str :=
  match indexOfStr (toLowerStr text) "subtotal".toList with
  | none => none
  | some 0 => none
  | some (k + 1) => scanFirst dollarAmountAt (text.drop (k + 1))

/-- The third pattern as the spec words it ("a windowed subtotal…$X.XX
pattern"): the window starts at the first occurrence of `subtotal`,
with no exception for an occurrence at index 0.  Used only to state the
"text matching none of the three patterns" clause against the code's
`subtotalWindow`. -/
def specSubtotalWindow (text : Str) : Option Str :=
  match indexOfStr (toLowerStr text) "subtotal".toList with
  | none => none
  | some k => scanFirst dollarAmountAt (text.drop k)

/-- The three-stage total extraction (lines 390-401): pattern 1, then
pattern 2, then the subtotal window.  Returns the captured group. -/
def extractTotal (text : Str) : Option Str :=
  match scanFirst totalPatAt text with
  | some g => some g
  | none =>
    match scanFirst dollarTotalPatAt text with
    | some g => some g
    | none => subtotalWindow text

/-- `orderSummary.total = ` dollar-sign + group (lines 402-404). -/
def scrapeTotal (text : Str) : Option Str :=
  (extractTotal text).map (fun g => '$' :: g)

/-- The best-effort scraping `try` block (lines 350-413): a cart count of
zero raises `CartEmpty`, which the `catch` re-raises (lines 409-411);
every other failure in the block (here: the "Continue" control never
appearing, line 361) is swallowed, leaving the total absent.  The final
navigation back to the cart cannot affect the already-built summary. -/
def scrapePhase (env : Env) : Except SbError (Option Str) :=
  if cartCountIsZero env.bodyText then .error .cartEmpty
  else if env.continueVisible then .ok (scrapeTotal env.checkoutText)
  else .ok none

/-! ## Item descriptions and results -/

/-- `item.size.charAt(0).toUpperCase() + item.size.slice(1)`. -/
def capSize : Size → Str
  | .tall => "Tall".toList
  | .grande => "Grande".toList
  | .venti => "Venti".toList

/-- `String.prototype.trim` (leading and trailing whitespace removed). -/
def trimStr (s : Str) : Str :=
  ((s.dropWhile Char.isWhitespace).reverse.dropWhile Char.isWhitespace).reverse

/-- The item-description template of lines 337-342 (also lines 457-462):
capitalized size prepended for drinks, bare name for food. -/
def describeItem (item : StarbucksItem) : Str :=
  match item.type with
  | .drink =>
    let sizePart :=
      match item.size with
      | some sz => capSize sz
      | none => []
    trimStr (sizePart ++ ' ' :: item.name)
  | .food => item.name

/-- The order summary returned by `placeOrder` (lines 345-348, 415-421):
descriptions from the caller's input, the location, and the best-effort
total. -/
structure OrderSummary where
  items : List Str
  location : Str
  total : Option Str
deriving DecidableEq, Repr

/-- A `{success, message}` result object. -/
structure OpResult where
  success : Bool
  message : Str
deriving DecidableEq, Repr

/-- The confirmation summary built from the stored pending snapshot
(lines 454-465). -/
structure ConfirmResult where
  items : List Str
  location : Str
deriving DecidableEq, Repr

/-! ## Order state machine (placeOrder / confirmOrder / cancelOrder) -/

/-- The body of `placeOrder` after the sign-in check (lines 267-421):
best-effort cart clearing (failures ignored, no observable state), the
resolved address is typed into the store search (for the string
addresses exercised here it does not influence control flow; a
prototype-chain lookup hit would yield a non-string `address` and make
the fill step throw, see `resolveAddress`), the store is bound, every
item is added, the pending-order
slot is written (line 335), and the summary is scraped.  Note the slot is
written *before* the scraping block, so a `CartEmpty` failure escapes
with the slot already set. -/
def placeOrderCore (env : Env) (st : ClientState) (items : List StarbucksItem)
    (location : Str) : ClientState × Except SbError OrderSummary :=
  if !env.storeInputVisible then (st, .error .storeNotFound)
  else if !env.orderHereOk then (st, .error .storeUnavailable)
  else
    match addItems env items with
    | .error e => (st, .error e)
    | .ok _ =>
      let st' := { st with pendingOrder := some ⟨items, location⟩ }
      match scrapePhase env with
      | .error e => (st', .error e)
      | .ok total =>
        (st', .ok { items := items.map describeItem, location := location,
                    total := total })

/-- `placeOrder(items, location)` (lines 242-425).  `ensureBrowserOpen`
always yields a live page; if a sign-in control is visible, auto-login is
attempted when both credential variables are set, else the operation
fails `NotAuthenticated`. -/
def placeOrder (env : Env) (st : ClientState) (items : List StarbucksItem)
    (location : Str) : ClientState × Except SbError OrderSummary :=
  let st1 := { st with pageOpen := true }
  if env.signInVisible then
    if env.credsPresent then
      if env.autoLoginOk then placeOrderCore env st1 items location
      else (st1, .error .autoLoginFailed)
    else (st1, .error .notAuthenticated)
  else placeOrderCore env st1 items location

/-- `confirmOrder()` (lines 427-469): requires a pending order, then a
live page, then the "Checkout" control; the final "Place order" click
sits in its own try/catch and its absence is tolerated (lines 444-449).
The slot is cleared only after the checkout steps (lines 451-452). -/
def confirmOrder (env : Env) (st : ClientState) :
    ClientState × Except SbError ConfirmResult :=
  match st.pendingOrder with
  | none => (st, .error .noPendingOrder)
  | some order =>
    if !st.pageOpen then (st, .error .browserNotActive)
    else if !env.checkoutVisible then (st, .error .confirmFailed)
    else
      ({ st with pendingOrder := none },
       .ok { items := order.items.map describeItem, location := order.location })

/-- `cancelOrder()` (lines 471-487): requires a pending order, clears it,
and best-effort navigates away (failure swallowed, line 480). -/
def cancelOrder (st : ClientState) : ClientState × Except SbError OpResult :=
  match st.pendingOrder with
  | none => (st, .error .noPendingOrder)
  | some _ =>
    ({ st with pendingOrder := none },
     .ok { success := true,
           message := ("Order cancelled. Cart may still contain items - " ++
                       "you can clear it manually if needed.").toList })

/-! ## Session check (`checkAuth`, lines 168-184) -/

/-- A persisted cookie record (only its presence matters to `checkAuth`). -/
structure Cookie where
  name : Str
  value : Str
deriving DecidableEq, Repr

/-- `checkAuth`'s result object. -/
structure AuthResult where
  authenticated : Bool
  message : Str
deriving DecidableEq, Repr

/-- The guidance message of lines 176 and 181. -/
def noSessionMsg : Str :=
  "No session found. Run login_starbucks to authenticate.".toList

/-- `checkAuth()`: the argument is the parsed content of the session
file, `none` when reading or parsing throws (file absent).  Authenticated
iff `cookies.length > 0`. -/
def checkAuth (sessionFile : Option (List Cookie)) : AuthResult :=
  match sessionFile with
  | none => { authenticated := false, message := noSessionMsg }
  | some cookies =>
    { authenticated := decide (0 < cookies.length),
      message :=
        if 0 < cookies.length then "✓ Starbucks session found".toList
        else noSessionMsg }

/-! ## Favorites (lines 80-84, 233-240) -/

/-- `addFavorite(name, items)`: unconditional `push` then persist. -/
def addFavorite (st : ClientState) (name : Str) (items : List StarbucksItem) :
    ClientState × OpResult :=
  ({ st with favorites := st.favorites ++ [⟨name, items⟩] },
   { success := true, message := "Added favorite: ".toList ++ name })

/-- The lookup of `orderFavorite` (line 234):
`this.favorites.find((f) => f.name === favoriteName)`. -/
def findFavorite (favorites : List StarbucksFavorite) (favoriteName : Str) :
    Option StarbucksFavorite :=
  favorites.find? (fun f => f.name == favoriteName)

/-- `orderFavorite(favoriteName, location)` (lines 233-240). -/
def orderFavorite (env : Env) (st : ClientState) (favoriteName : Str)
    (location : Str) : ClientState × Except SbError OrderSummary :=
  match findFavorite st.favorites favoriteName with
  | none => (st, .error (.favoriteNotFound favoriteName))
  | some favorite => placeOrder env st favorite.items location

/-! ## Concrete inputs used by the witnesses -/

/-- The client state right after start-up, before any order. -/
def idleState : ClientState := { pendingOrder := none, pageOpen := false, favorites := [] }

/-- A drink item used throughout the witnesses. -/
def demoItem : StarbucksItem :=
  { type := ItemType.drink, name := "Pike Place Roast".toList, size := some Size.grande }

/-- A benign browser environment: logged in, store available, one
matching product, cart populated, checkout showing "Total $7.45". -/
def demoEnv : Env :=
  { signInVisible := false, credsPresent := false, autoLoginOk := false,
    storeInputVisible := true, orderHereOk := true,
    listing := fun _ => ["Pike Place Roast".toList],
    sizeVisible := true, addOk := true,
    bodyText := "Review order (1)".toList,
    continueVisible := true,
    checkoutText := "Total $7.45".toList,
    checkoutVisible := true }

/-! ## Helper lemmas -/

/-- `List.find?` returns the first element satisfying the predicate:
it satisfies it, and every element at a smaller index fails it. -/
theorem find?_first {α : Type _} (p : α → Bool) :
    ∀ (l : List α) (a : α), l.find? p = some a →
      p a = true ∧ ∃ k, ∃ hk : k < l.length, l.get ⟨k, hk⟩ = a ∧
        ∀ j, ∀ hj : j < l.length, j < k → p (l.get ⟨j, hj⟩) = false := by
  intro l
  induction l with
  | nil => intro a h; simp [List.find?] at h
  | cons x xs ih =>
    intro a h
    cases hpx : p x with
    | true =>
      rw [List.find?_cons_of_pos _ hpx] at h
      obtain rfl : x = a := by injection h
      refine ⟨hpx, 0, by simp, rfl, ?_⟩
      intro j hj hj0
      exact absurd hj0 (Nat.not_lt_zero j)
    | false =>
      rw [List.find?_cons_of_neg _ (by simp [hpx])] at h
      obtain ⟨hpa, k, hk, hget, hbefore⟩ := ih a h
      refine ⟨hpa, k + 1, by simpa using Nat.succ_lt_succ hk, hget, ?_⟩
      intro j hj hjk
      cases j with
      | zero => simpa using hpx
      | succ j => exact hbefore j (by simpa using Nat.lt_of_succ_lt_succ hj) (Nat.lt_of_succ_lt_succ hjk)

/-- A matched item with its size label and "Add to Order" control
available is added successfully. -/
theorem addItemToCart_ok (env : Env) (item : StarbucksItem) (c : Str)
    (hsz : env.sizeVisible = true) (hadd : env.addOk = true)
    (hf : findTarget item.name (env.listing (categoryOf item)) = some c) :
    addItemToCart env item = Except.ok () := by
  obtain ⟨ty, nm, sz⟩ := item
  unfold addItemToCart
  rw [hf]
  cases ty <;> cases sz <;> simp [hsz, hadd]

/-- If every item before `bad` resolves (and sizes/add controls are
available) and `bad` resolves to no candidate, the add loop stops at
`bad` with its `ItemNotFound`. -/
theorem addItems_first_bad (env : Env)
    (hsz : env.sizeVisible = true) (hadd : env.addOk = true) :
    ∀ (pre : List StarbucksItem) (bad : StarbucksItem) (post : List StarbucksItem),
      (∀ item ∈ pre, findTarget item.name (env.listing (categoryOf item)) ≠ none) →
      findTarget bad.name (env.listing (categoryOf bad)) = none →
      addItems env (pre ++ bad :: post) =
        Except.error (SbError.itemNotFound bad.name) := by
  intro pre
  induction pre with
  | nil =>
    intro bad post _ hbad
    simp only [List.nil_append, addItems]
    unfold addItemToCart
    rw [hbad]
  | cons x xs ih =>
    intro bad post hpre hbad
    have hx : findTarget x.name (env.listing (categoryOf x)) ≠ none :=
      hpre x (List.mem_cons_self x xs)
    obtain ⟨c, hc⟩ := Option.ne_none_iff_exists'.mp hx
    simp only [List.cons_append, addItems, addItemToCart_ok env x c hsz hadd hc]
    exact ih bad post (fun i hi => hpre i (List.mem_cons_of_mem x hi)) hbad

/-- When `placeOrderCore` returns `ok`, the resulting state is the input
state with the pending-order slot overwritten by the new snapshot. -/
theorem placeOrderCore_ok_state (env : Env) (st st' : ClientState)
    (items : List StarbucksItem) (location : Str) (s : OrderSummary)
    (h : placeOrderCore env st items location = (st', Except.ok s)) :
    st' = { st with pendingOrder := some ⟨items, location⟩ } := by
  unfold placeOrderCore at h
  split at h
  · simp at h
  · split at h
    · simp at h
    · split at h
      · simp at h
      · split at h
        · simp at h
        · simp at h
          exact h.1.symm

/-- When `placeOrder` returns `ok`, the resulting state is the input
state with the page open and the pending-order slot overwritten. -/
theorem placeOrder_ok_state (env : Env) (st st' : ClientState)
    (items : List StarbucksItem) (location : Str) (s : OrderSummary)
    (h : placeOrder env st items location = (st', Except.ok s)) :
    st' = { st with pageOpen := true, pendingOrder := some ⟨items, location⟩ } := by
  unfold placeOrder at h
  split at h
  · split at h
    · split at h
      · exact placeOrderCore_ok_state _ _ _ _ _ _ h
      · simp at h
    · simp at h
  · exact placeOrderCore_ok_state _ _ _ _ _ _ h

/-- Every value in the address table is the Polk Street address. -/
theorem assocLookup_addressMap (k v : Str)
    (h : assocLookup addressMap k = some v) : v = polkStAddress := by
  simp only [addressMap, assocLookup] at h
  split at h
  · exact (Option.some.inj h).symm
  · split at h
    · exact (Option.some.inj h).symm
    · split at h
      · exact (Option.some.inj h).symm
      · exact absurd h (by simp)

/-! ## Claim theorems -/

/-- C1: at most one pending order per session.  A successful `placeOrder`
sets the pending-order slot to the new `{items, location}` snapshot,
overwriting any prior pending order, and `confirmOrder` / `cancelOrder`
invoked with an empty slot fail with `NoPendingOrder` leaving the state
unchanged. -/
theorem C1_single_pending_order :
    (∀ (env : Env) (st st' : ClientState) (items : List StarbucksItem)
        (location : Str) (s : OrderSummary),
        placeOrder env st items location = (st', Except.ok s) →
        st'.pendingOrder = some ⟨items, location⟩) ∧
    (∀ (env : Env) (st : ClientState), st.pendingOrder = none →
        confirmOrder env st = (st, Except.error SbError.noPendingOrder)) ∧
    (∀ (st : ClientState), st.pendingOrder = none →
        cancelOrder st = (st, Except.error SbError.noPendingOrder)) := by
  refine ⟨?_, ?_, ?_⟩
  · intro env st st' items location s h
    rw [placeOrder_ok_state env st st' items location s h]
  · intro env st h
    unfold confirmOrder
    rw [h]
  · intro st h
    unfold cancelOrder
    rw [h]

/-- Witness for C1: a concrete successful order sets the slot, and the
idle state rejects confirm and cancel. -/
theorem C1_single_pending_order_witness :
    ({ pendingOrder := some ⟨[demoItem], "Polk Street".toList⟩, pageOpen := true,
       favorites := [] } : ClientState).pendingOrder
        = some ⟨[demoItem], "Polk Street".toList⟩ ∧
    confirmOrder demoEnv idleState = (idleState, Except.error SbError.noPendingOrder) ∧
    cancelOrder idleState = (idleState, Except.error SbError.noPendingOrder) := by
  refine ⟨?_, ?_, ?_⟩
  · exact C1_single_pending_order.1 demoEnv idleState _ [demoItem] "Polk Street".toList
      ⟨["Grande Pike Place Roast".toList], "Polk Street".toList, some "$7.45".toList⟩
      (by rfl)
  · exact C1_single_pending_order.2.1 demoEnv idleState rfl
  · exact C1_single_pending_order.2.2 idleState rfl

/-- C2: when the item list contains an item resolving to no candidate in
its category listing (every earlier item resolving), `placeOrder` fails
with `ItemNotFound` naming that item, and the pending-order slot is not
written on that path. -/
theorem C2_item_not_found_no_pending :
    ∀ (env : Env) (st : ClientState) (pre : List StarbucksItem)
      (bad : StarbucksItem) (post : List StarbucksItem) (location : Str),
      env.signInVisible = false → env.storeInputVisible = true →
      env.orderHereOk = true → env.sizeVisible = true → env.addOk = true →
      (∀ item ∈ pre, findTarget item.name (env.listing (categoryOf item)) ≠ none) →
      findTarget bad.name (env.listing (categoryOf bad)) = none →
      placeOrder env st (pre ++ bad :: post) location =
        ({ st with pageOpen := true },
         Except.error (SbError.itemNotFound bad.name)) ∧
      ({ st with pageOpen := true } : ClientState).pendingOrder = st.pendingOrder := by
  intro env st pre bad post location hsi hsv hoh hsz hadd hpre hbad
  have haddit := addItems_first_bad env hsz hadd pre bad post hpre hbad
  refine ⟨?_, rfl⟩
  unfold placeOrder placeOrderCore
  simp [hsi, hsv, hoh, haddit]

/-- Witness for C2: "Nonexistent Latte" after a resolvable item. -/
theorem C2_item_not_found_no_pending_witness :
    placeOrder demoEnv idleState
        [demoItem, ⟨ItemType.drink, "Nonexistent Latte".toList, some Size.tall⟩]
        "Polk Street".toList =
      ({ idleState with pageOpen := true },
       Except.error (SbError.itemNotFound "Nonexistent Latte".toList)) ∧
    ({ idleState with pageOpen := true } : ClientState).pendingOrder =
      idleState.pendingOrder :=
  C2_item_not_found_no_pending demoEnv idleState [demoItem]
    ⟨ItemType.drink, "Nonexistent Latte".toList, some Size.tall⟩ []
    "Polk Street".toList rfl rfl rfl rfl rfl (by decide) (by decide)

/-- C3: a successful `placeOrder` followed by `cancelOrder` leaves no
pending order, and a subsequent `confirmOrder` fails with
`NoPendingOrder` (state unchanged). -/
theorem C3_place_cancel_confirm :
    ∀ (env env2 : Env) (st st1 : ClientState) (items : List StarbucksItem)
      (location : Str) (s : OrderSummary),
      placeOrder env st items location = (st1, Except.ok s) →
      ∃ r : OpResult,
        cancelOrder st1 = ({ st1 with pendingOrder := none }, Except.ok r) ∧
        ({ st1 with pendingOrder := none } : ClientState).pendingOrder = none ∧
        confirmOrder env2 { st1 with pendingOrder := none } =
          ({ st1 with pendingOrder := none },
           Except.error SbError.noPendingOrder) := by
  intro env env2 st st1 items location s h
  have hst1 := placeOrder_ok_state env st st1 items location s h
  subst hst1
  exact ⟨_, rfl, rfl, rfl⟩

/-- Witness for C3 at a concrete successful order. -/
theorem C3_place_cancel_confirm_witness :
    ∃ r : OpResult,
      cancelOrder { pendingOrder := some ⟨[demoItem], "Polk Street".toList⟩,
                    pageOpen := true, favorites := [] } =
        ({ pendingOrder := none, pageOpen := true, favorites := [] },
         Except.ok r) ∧
      ({ pendingOrder := none, pageOpen := true,
         favorites := [] } : ClientState).pendingOrder = none ∧
      confirmOrder demoEnv { pendingOrder := none, pageOpen := true, favorites := [] } =
        ({ pendingOrder := none, pageOpen := true, favorites := [] },
         Except.error SbError.noPendingOrder) :=
  C3_place_cancel_confirm demoEnv demoEnv idleState _ [demoItem] "Polk Street".toList
    ⟨["Grande Pike Place Roast".toList], "Polk Street".toList, some "$7.45".toList⟩
    (by rfl)

/-- C10: `confirmOrder` is atomic on failure — with a pending order set,
a missing page or a checkout control that never appears leaves the state
(and its pending order) unchanged; the slot is cleared only on the
success path. -/
theorem C10_confirm_atomic_on_failure :
    (∀ (env : Env) (st : ClientState) (order : PendingOrder),
        st.pendingOrder = some order → st.pageOpen = false →
        confirmOrder env st = (st, Except.error SbError.browserNotActive)) ∧
    (∀ (env : Env) (st : ClientState) (order : PendingOrder),
        st.pendingOrder = some order → st.pageOpen = true →
        env.checkoutVisible = false →
        confirmOrder env st = (st, Except.error SbError.confirmFailed)) ∧
    (∀ (env : Env) (st : ClientState) (order : PendingOrder),
        st.pendingOrder = some order → st.pageOpen = true →
        env.checkoutVisible = true →
        confirmOrder env st =
          ({ st with pendingOrder := none },
           Except.ok ⟨order.items.map describeItem, order.location⟩)) := by
  refine ⟨?_, ?_, ?_⟩
  · intro env st order hpo hpg
    unfold confirmOrder
    rw [hpo]
    simp [hpg]
  · intro env st order hpo hpg hcv
    unfold confirmOrder
    rw [hpo]
    simp [hpg, hcv]
  · intro env st order hpo hpg hcv
    unfold confirmOrder
    rw [hpo]
    simp [hpg, hcv]

/-- Witness for C10: a pending order with no live page is rejected and
kept. -/
theorem C10_confirm_atomic_on_failure_witness :
    confirmOrder demoEnv
        { pendingOrder := some ⟨[demoItem], "Polk Street".toList⟩,
          pageOpen := false, favorites := [] } =
      ({ pendingOrder := some ⟨[demoItem], "Polk Street".toList⟩,
         pageOpen := false, favorites := [] },
       Except.error SbError.browserNotActive) :=
  C10_confirm_atomic_on_failure.1 demoEnv _ ⟨[demoItem], "Polk Street".toList⟩ rfl rfl

/-- C4: a cart-count indicator of "Review order (0)" makes `placeOrder`
raise `CartEmpty`, which the best-effort scraping block re-raises; every
other scraping failure (here: the "Continue" control never appearing) is
swallowed, yielding a success with the total absent, never a silent
empty-items success for a zero cart count. -/
theorem C4_cart_empty_reraised :
    (∀ (env : Env) (st : ClientState) (items : List StarbucksItem) (location : Str),
        env.signInVisible = false → env.storeInputVisible = true →
        env.orderHereOk = true → addItems env items = Except.ok () →
        reviewOrderCount env.bodyText = some ['0'] →
        placeOrder env st items location =
          ({ st with pageOpen := true, pendingOrder := some ⟨items, location⟩ },
           Except.error SbError.cartEmpty)) ∧
    (∀ (env : Env) (st : ClientState) (items : List StarbucksItem) (location : Str),
        env.signInVisible = false → env.storeInputVisible = true →
        env.orderHereOk = true → addItems env items = Except.ok () →
        cartCountIsZero env.bodyText = false → env.continueVisible = false →
        placeOrder env st items location =
          ({ st with pageOpen := true, pendingOrder := some ⟨items, location⟩ },
           Except.ok ⟨items.map describeItem, location, none⟩)) := by
  constructor
  · intro env st items location hsi hsv hoh haddit hrc
    unfold placeOrder placeOrderCore scrapePhase cartCountIsZero
    simp [hsi, hsv, hoh, haddit, hrc]
  · intro env st items location hsi hsv hoh haddit hcz hcv
    unfold placeOrder placeOrderCore scrapePhase
    simp [hsi, hsv, hoh, haddit, hcz, hcv]

/-- Witness for C4: a cart page reading "Review order (0)". -/
theorem C4_cart_empty_reraised_witness :
    placeOrder { demoEnv with bodyText := "Review order (0)".toList } idleState
        [demoItem] "Polk Street".toList =
      ({ pendingOrder := some ⟨[demoItem], "Polk Street".toList⟩,
         pageOpen := true, favorites := [] },
       Except.error SbError.cartEmpty) :=
  C4_cart_empty_reraised.1 { demoEnv with bodyText := "Review order (0)".toList }
    idleState [demoItem] "Polk Street".toList rfl rfl rfl (by rfl) (by rfl)

/-- C5: product matching — the selected candidate passes the
diacritic-stripped case-insensitive containment test and the traveler
exclusion, it is the first such candidate in DOM order, and a listing
with no surviving candidate makes `addItemToCart` fail with
`ItemNotFound` for that name. -/
theorem C5_product_matching :
    (∀ (itemName : Str) (candidates : List Str) (c : Str),
        findTarget itemName candidates = some c →
        candidateMatches itemName c = true ∧
        ∃ k, ∃ hk : k < candidates.length,
          candidates.get ⟨k, hk⟩ = c ∧
          ∀ j, ∀ hj : j < candidates.length, j < k →
            candidateMatches itemName (candidates.get ⟨j, hj⟩) = false) ∧
    (∀ (env : Env) (item : StarbucksItem),
        (∀ text ∈ env.listing (categoryOf item),
          candidateMatches item.name text = false) →
        addItemToCart env item = Except.error (SbError.itemNotFound item.name)) ∧
    (findTarget "caffè misto".toList
        ["Caffe Misto Traveler Pack".toList, "CAFFÈ MISTO".toList] =
      some "CAFFÈ MISTO".toList) := by
  refine ⟨?_, ?_, by decide⟩
  · intro itemName candidates c h
    exact find?_first (candidateMatches itemName) candidates c h
  · intro env item hnone
    have hfe : List.find? (candidateMatches item.name)
        (env.listing (categoryOf item)) = none :=
      List.find?_eq_none.mpr (fun x hx => by simp [hnone x hx])
    unfold addItemToCart findTarget
    rw [hfe]

/-- Witness for C5: the diacritic/case/traveler example, and an empty
listing rejecting the demo item. -/
theorem C5_product_matching_witness :
    candidateMatches "caffè misto".toList "CAFFÈ MISTO".toList = true ∧
    addItemToCart { demoEnv with listing := fun _ => [] } demoItem =
      Except.error (SbError.itemNotFound demoItem.name) :=
  ⟨(C5_product_matching.1 "caffè misto".toList
      ["Caffe Misto Traveler Pack".toList, "CAFFÈ MISTO".toList]
      "CAFFÈ MISTO".toList (by decide)).1,
   C5_product_matching.2.1 { demoEnv with listing := fun _ => [] } demoItem
     (by simp)⟩

/-- C6: total extraction tries "Total $X.XX", then "$X.XX total", then
the windowed "subtotal…$X.XX" pattern in that priority order; an earlier
matching pattern's amount wins, "Total $7.45" yields "$7.45", and a text
matching none of the three patterns yields no total rather than a
failure. -/
theorem C6_total_priority :
    (∀ (text g : Str), scanFirst totalPatAt text = some g →
        scrapeTotal text = some ('$' :: g)) ∧
    (∀ (text g : Str), scanFirst totalPatAt text = none →
        scanFirst dollarTotalPatAt text = some g →
        scrapeTotal text = some ('$' :: g)) ∧
    (scrapeTotal "Total $7.45".toList = some "$7.45".toList) ∧
    (∀ text : Str, scanFirst totalPatAt text = none →
        scanFirst dollarTotalPatAt text = none →
        specSubtotalWindow text = none →
        scrapeTotal text = none) := by
  refine ⟨?_, ?_, by decide, ?_⟩
  · intro text g h
    simp [scrapeTotal, extractTotal, h]
  · intro text g h1 h2
    simp [scrapeTotal, extractTotal, h1, h2]
  · intro text h1 h2 h3
    have hcode : subtotalWindow text = none := by
      unfold subtotalWindow
      unfold specSubtotalWindow at h3
      cases hidx : indexOfStr (toLowerStr text) "subtotal".toList with
      | none => rfl
      | some k =>
        rw [hidx] at h3
        cases k with
        | zero => rfl
        | succ k => exact h3
    simp [scrapeTotal, extractTotal, h1, h2, hcode]

/-- Witness for C6: the second pattern wins when the first fails, and a
text with no recognizable pattern yields no total. -/
theorem C6_total_priority_witness :
    scrapeTotal "xx $3.20 total yy".toList = some "$3.20".toList ∧
    scrapeTotal "no price here".toList = none :=
  ⟨C6_total_priority.2.1 "xx $3.20 total yy".toList "3.20".toList
      (by decide) (by decide),
   C6_total_priority.2.2.2 "no price here".toList (by decide) (by decide)
      (by decide)⟩

/-- C7 counterexample: "Constructor" lowercases to "constructor", a
property key inherited from `Object.prototype`, so the bracket lookup
returns the truthy inherited function, the `||` fallback is bypassed,
and resolution yields a non-address value — likewise for `__proto__`.
Resolution is therefore not total onto addresses. -/
theorem C7_proto_key_counterexample :
    resolveAddress "Constructor".toList = AddressValue.protoObject ∧
    resolveAddress "__proto__".toList = AddressValue.protoObject ∧
    resolveAddress "Constructor".toList ≠ AddressValue.str polkStAddress := by
  decide

/-- C7 as amended: resolution is case-insensitive via lowercasing;
recognized names map to their table address and unrecognized names map
to the fixed default address — except a name whose lowercase form is a
property key inherited from `Object.prototype`, where the lookup yields
the truthy inherited non-address value instead of the default. -/
theorem C7_location_resolution_amended :
    (assocLookup addressMap (toLowerStr "Polk Street".toList) = some polkStAddress) ∧
    (assocLookup addressMap (toLowerStr "polk".toList) = some polkStAddress) ∧
    (assocLookup addressMap (toLowerStr "Unknown District".toList) = none) ∧
    (resolveAddress "Polk Street".toList = AddressValue.str polkStAddress) ∧
    (resolveAddress "polk street".toList = AddressValue.str polkStAddress) ∧
    (resolveAddress "polk".toList = AddressValue.str polkStAddress) ∧
    (resolveAddress "Unknown District".toList = AddressValue.str polkStAddress) ∧
    (∀ location : Str, toLowerStr location ∉ objectPrototypeKeys →
        resolveAddress location = AddressValue.str polkStAddress) := by
  refine ⟨by decide, by decide, by decide, by decide, by decide, by decide,
    by decide, ?_⟩
  intro location hnp
  unfold resolveAddress jsPropLookup
  cases h : assocLookup addressMap (toLowerStr location) with
  | none => simp [hnp]
  | some v =>
    have hv : v = polkStAddress := assocLookup_addressMap _ v h
    subst hv
    simp

/-- Witness for C7's amended statement: an arbitrary unmapped,
non-prototype name resolves to the default address. -/
theorem C7_location_resolution_amended_witness :
    resolveAddress "SOMA".toList = AddressValue.str polkStAddress :=
  C7_location_resolution_amended.2.2.2.2.2.2.2 "SOMA".toList (by decide)

/-- C8: `checkAuth` reports authenticated exactly when the persisted
session file holds at least one cookie record; an absent (unreadable)
file reports unauthenticated with the guidance message instead of
failing. -/
theorem C8_check_auth :
    (∀ sessionFile : Option (List Cookie),
        (checkAuth sessionFile).authenticated = true ↔
          ∃ cookies, sessionFile = some cookies ∧ 0 < cookies.length) ∧
    checkAuth none = ⟨false, noSessionMsg⟩ := by
  constructor
  · intro sessionFile
    cases sessionFile with
    | none => simp [checkAuth]
    | some cookies =>
      simp only [checkAuth, decide_eq_true_eq]
      constructor
      · intro h
        exact ⟨cookies, rfl, h⟩
      · rintro ⟨cs, hcs, hlen⟩
        obtain rfl : cookies = cs := by injection hcs
        exact hlen
  · rfl

/-- Witness for C8: one stored cookie authenticates, no file does not. -/
theorem C8_check_auth_witness :
    (checkAuth (some [⟨"name".toList, "value".toList⟩])).authenticated = true ∧
    checkAuth none = ⟨false, noSessionMsg⟩ :=
  ⟨(C8_check_auth.1 (some [⟨"name".toList, "value".toList⟩])).mpr
      ⟨[⟨"name".toList, "value".toList⟩], rfl, by decide⟩,
   C8_check_auth.2⟩

/-- C9 counterexample: two `addFavorite` calls with the same name leave
two stored favorites sharing that name, refuting uniqueness of the name
key. -/
theorem C9_unique_name_counterexample :
    ((addFavorite (addFavorite idleState "Breakfast".toList []).1
        "Breakfast".toList [⟨ItemType.food, "Bagel".toList, none⟩]).1.favorites.map
        StarbucksFavorite.name) =
      ["Breakfast".toList, "Breakfast".toList] ∧
    ¬ List.Pairwise (fun a b => a.name ≠ b.name)
        ((addFavorite (addFavorite idleState "Breakfast".toList []).1
            "Breakfast".toList
            [⟨ItemType.food, "Bagel".toList, none⟩]).1.favorites) := by
  decide

/-- C9 as amended: `addFavorite` appends unconditionally, so duplicate
names can be stored; `orderFavorite`'s lookup returns the first stored
favorite bearing the requested name (and finds none only when no stored
favorite bears it), so lookup identifies at most one entry — the
earliest — even when names collide. -/
theorem C9_first_match_lookup :
    (∀ (st : ClientState) (name : Str) (items : List StarbucksItem),
        (addFavorite st name items).1.favorites = st.favorites ++ [⟨name, items⟩]) ∧
    (∀ (favorites : List StarbucksFavorite) (favoriteName : Str)
        (f : StarbucksFavorite),
        findFavorite favorites favoriteName = some f →
        f.name = favoriteName ∧
        ∃ k, ∃ hk : k < favorites.length,
          favorites.get ⟨k, hk⟩ = f ∧
          ∀ j, ∀ hj : j < favorites.length, j < k →
            (favorites.get ⟨j, hj⟩).name ≠ favoriteName) ∧
    (∀ (favorites : List StarbucksFavorite) (favoriteName : Str),
        (∀ f ∈ favorites, f.name ≠ favoriteName) →
        findFavorite favorites favoriteName = none) := by
  refine ⟨?_, ?_, ?_⟩
  · intro st name items
    rfl
  · intro favorites favoriteName f h
    obtain ⟨hpf, k, hk, hget, hbefore⟩ := find?_first _ favorites f h
    refine ⟨by simpa using hpf, k, hk, hget, ?_⟩
    intro j hj hjk
    simpa using hbefore j hj hjk
  · intro favorites favoriteName hall
    unfold findFavorite
    exact List.find?_eq_none.mpr (fun f hf => by
      simp only [beq_iff_eq]
      exact hall f hf)

/-- Witness for C9's amended statement. -/
theorem C9_first_match_lookup_witness :
    (addFavorite idleState "Breakfast".toList []).1.favorites =
      [⟨"Breakfast".toList, []⟩] ∧
    (⟨"Breakfast".toList, []⟩ : StarbucksFavorite).name = "Breakfast".toList :=
  ⟨C9_first_match_lookup.1 idleState "Breakfast".toList [],
   (C9_first_match_lookup.2.1 [⟨"Breakfast".toList, []⟩] "Breakfast".toList
      ⟨"Breakfast".toList, []⟩ (by decide)).1⟩

end SBModel
